import Mathlib

/-!
Verification of the fifa-tracker-web client-side session and API-access layer.

The definitions below are a shallow embedding of the TypeScript source:
`src/lib/api.ts` (the API client: `getApiBaseUrl`, `createAuthenticatedRequest`
with its 401 response interceptor, `refreshToken`, `login`, `getCurrentUser`,
the resource operations) and `src/lib/auth.tsx` (the `AuthProvider` session
manager: `checkAuth`, `signIn`, `signOut`).

Modelling conventions:
* `localStorage` is modelled by `Storage`, a record of the three persisted
  keys (`fifa-tracker-token`, `fifa-tracker-user`, `fifa-tracker-refresh-token`);
  a `none` field means the key is absent.
* The serialized user blob is modelled as `Option (Option User)`: the outer
  option is key presence, the inner option is whether `JSON.parse` succeeds
  (`JSON.stringify` of a `User` always round-trips, so writes store
  `some (some u)`; `some none` models pre-existing malformed data).
* Network responses are oracle parameters: `Except (Option Nat) α` is a
  response that either succeeds with a payload or fails as an axios error
  carrying `error.response?.status` (`none` models a network error with no
  response).  Each modelled operation is a pure function of the storage
  state and these oracles, returning its result together with the updated
  storage, the navigation target (`window.location.href`), and, where a
  claim needs it, a count of network requests issued.
* JavaScript truthiness of `string | null` values is modelled by `truthy`.
-/

namespace FifaTracker

/-- Profile record as used by `auth.tsx` (fields `id`, `email`, `name`,
`username` of the `User` interface that the sign-in fallback copies). -/
structure User where
  id : String
  email : String
  name : String
  username : String
deriving DecidableEq

/-- The three persisted localStorage keys: `fifa-tracker-token`,
`fifa-tracker-user` (serialized profile), `fifa-tracker-refresh-token`. -/
structure Storage where
  token : Option String
  user : Option (Option User)
  refreshTok : Option String
deriving DecidableEq

/-- Storage with none of the three keys present. -/
def emptyStorage : Storage := ⟨none, none, none⟩

/-- JavaScript truthiness of a `string | null` value: `null` and `""` are falsy. -/
def truthy : Option String → Bool
  | none => false
  | some s => s != ""

/-- Execution environment: whether `typeof window !== 'undefined'`. -/
structure Env where
  inBrowser : Bool

/-- Result of `refreshToken()`: the updated storage, the returned
access token (`null` modelled as `none`), and how many network requests
were issued. -/
structure RefreshOutcome where
  store : Storage
  result : Option String
  networkCalls : Nat
deriving DecidableEq

/-- Embedding of `refreshToken()` (api.ts lines 810-834): reads the persisted
refresh token; if absent (falsy) returns `null` with no network call;
otherwise posts to `/auth/refresh` (the oracle `resp` carries the server's
`access_token` field, `none` when the field is absent, `.error` when the
endpoint rejects).  A truthy new token is persisted and returned; a missing
token returns `null`; a rejected call clears the token and refresh-token
keys and returns `null`. -/
def refreshToken (st : Storage) (resp : Except Unit (Option String)) : RefreshOutcome :=
  if truthy st.refreshTok then
    match resp with
    | .error _ => ⟨{ st with token := none, refreshTok := none }, none, 1⟩
    | .ok tok =>
      if truthy tok then ⟨{ st with token := tok }, tok, 1⟩
      else ⟨st, none, 1⟩
  else ⟨st, none, 0⟩

/-- Outcome of the response interceptor's error handler: updated storage,
navigation target (`window.location.href`), number of times the refresh
operation was invoked, and whether the original error was rejected back to
the caller (the interceptor ends in `Promise.reject(error)` on every path,
so a retried request would show up as `propagated = false`; none exists). -/
structure RespErrorOutcome where
  store : Storage
  location : Option String
  refreshInvocations : Nat
  propagated : Bool
deriving DecidableEq

/-- Embedding of the response interceptor installed by
`createAuthenticatedRequest` (api.ts lines 236-256): on a 401 response it
invokes `refreshToken()` once; if that yields no token it removes all three
storage keys and, in a browser, navigates to `/auth`; in every case the
original error is rejected to the caller (no retry). -/
def handleResponseError (env : Env) (st : Storage) (status : Option Nat)
    (refreshResp : Except Unit (Option String)) (loc : Option String) : RespErrorOutcome :=
  if status = some 401 then
    let r := refreshToken st refreshResp
    match r.result with
    | some _ => ⟨r.store, loc, 1, true⟩
    | none => ⟨emptyStorage, if env.inBrowser then some "/auth" else loc, 1, true⟩
  else ⟨st, loc, 0, true⟩

/-- Embedding of `getCurrentUser()` (api.ts lines 836-845): issues an
authenticated GET of `/auth/me`; on failure the interceptor runs first and
the function's own `catch` swallows the rejection and returns `null`. -/
def getCurrentUser (env : Env) (st : Storage) (resp : Except (Option Nat) User)
    (refreshResp : Except Unit (Option String)) (loc : Option String) :
    Option User × Storage × Option String :=
  match resp with
  | .ok u => (some u, st, loc)
  | .error status =>
    let r := handleResponseError env st status refreshResp loc
    (none, r.store, r.location)

/-- C1: for every authenticated request whose response is 401, if the
subsequent `refreshToken()` call returns null then all three persisted
storage keys are removed and the browser is navigated to `/auth`. -/
theorem c1_refresh_failure_purges_session (env : Env) (st : Storage)
    (refreshResp : Except Unit (Option String)) (loc : Option String)
    (hb : env.inBrowser = true)
    (hf : (refreshToken st refreshResp).result = none) :
    handleResponseError env st (some 401) refreshResp loc =
      ⟨emptyStorage, some "/auth", 1, true⟩ := by
  unfold handleResponseError
  simp [hf, hb]

/-- Witness for C1 at a concrete input: empty storage has no refresh token,
so the refresh fails and the interceptor purges and redirects. -/
theorem c1_witness :
    handleResponseError ⟨true⟩ emptyStorage (some 401) (.error ()) none =
      ⟨emptyStorage, some "/auth", 1, true⟩ :=
  c1_refresh_failure_purges_session ⟨true⟩ emptyStorage (.error ()) none rfl rfl

/-- Helper: when `refreshToken` returns a token it has also persisted it. -/
theorem refreshToken_persists_result (st : Storage)
    (resp : Except Unit (Option String)) (t : String)
    (h : (refreshToken st resp).result = some t) :
    (refreshToken st resp).store.token = some t := by
  unfold refreshToken at h ⊢
  by_cases hr : truthy st.refreshTok = true
  · rw [if_pos hr] at h ⊢
    cases resp with
    | error e => simp at h
    | ok tok =>
      dsimp only at h ⊢
      by_cases htok : truthy tok = true
      · rw [if_pos htok] at h ⊢
        simp at h ⊢
        exact h
      · rw [if_neg htok] at h
        simp at h
  · rw [if_neg hr] at h
    simp at h

/-- C2: a 401 response invokes the refresh operation exactly once, and even
when the refresh succeeds (the new token is persisted in storage) the
triggering request is not retried: the original error is still rejected. -/
theorem c2_single_refresh_no_retry (env : Env) (st : Storage)
    (refreshResp : Except Unit (Option String)) (loc : Option String) :
    (handleResponseError env st (some 401) refreshResp loc).refreshInvocations = 1 ∧
    (handleResponseError env st (some 401) refreshResp loc).propagated = true ∧
    (∀ t, (refreshToken st refreshResp).result = some t →
      (handleResponseError env st (some 401) refreshResp loc).store =
        (refreshToken st refreshResp).store ∧
      (refreshToken st refreshResp).store.token = some t) := by
  refine ⟨?_, ?_, ?_⟩
  · unfold handleResponseError
    simp only [if_pos rfl]
    cases h : (refreshToken st refreshResp).result <;> simp [h]
  · unfold handleResponseError
    simp only [if_pos rfl]
    cases h : (refreshToken st refreshResp).result <;> simp [h]
  · intro t ht
    refine ⟨?_, refreshToken_persists_result st refreshResp t ht⟩
    unfold handleResponseError
    simp [ht]

/-- Witness for C2 at a concrete input with a succeeding refresh. -/
theorem c2_witness :
    (handleResponseError ⟨true⟩ ⟨none, none, some "r"⟩ (some 401) (.ok (some "t2")) none).refreshInvocations = 1 ∧
    (handleResponseError ⟨true⟩ ⟨none, none, some "r"⟩ (some 401) (.ok (some "t2")) none).store.token = some "t2" := by
  have h := c2_single_refresh_no_retry ⟨true⟩ ⟨none, none, some "r"⟩ (.ok (some "t2")) none
  exact ⟨h.1, by rw [(h.2.2 "t2" rfl).1]; exact (h.2.2 "t2" rfl).2⟩

/-- C10: when no refresh token is persisted, `refreshToken()` returns null
without issuing any network request and without modifying any storage key. -/
theorem c10_no_refresh_token_is_noop (st : Storage)
    (resp : Except Unit (Option String)) (h : st.refreshTok = none) :
    refreshToken st resp = ⟨st, none, 0⟩ := by
  unfold refreshToken
  simp [truthy, h]

/-- Witness for C10 at a concrete input: token and user keys are left as
they were and no network call happens. -/
theorem c10_witness :
    refreshToken ⟨some "a", some none, none⟩ (.ok (some "x")) =
      ⟨⟨some "a", some none, none⟩, none, 0⟩ :=
  c10_no_refresh_token_is_noop ⟨some "a", some none, none⟩ (.ok (some "x")) rfl

/-- Login response payload (api.ts `login`): the user fields plus the
optional `access_token` and `refresh_token` fields of the response body. -/
structure LoginData where
  id : String
  email : String
  name : String
  username : String
  access_token : Option String
  refresh_token : Option String
deriving DecidableEq

/-- Embedding of `login()` (api.ts lines 768-808): posts credentials; on
success stores the returned access token and refresh token (each only when
truthy) and returns the response body; on failure returns `null` without
touching storage. -/
def login (st : Storage) (resp : Except Unit LoginData) : Option LoginData × Storage :=
  match resp with
  | .error _ => (none, st)
  | .ok r =>
    let st1 := if truthy r.access_token then { st with token := r.access_token } else st
    let st2 := if truthy r.refresh_token then { st1 with refreshTok := r.refresh_token } else st1
    (some r, st2)

/-- React state of `AuthProvider` (auth.tsx): the Session. -/
structure AuthState where
  user : Option User
  accessToken : Option String
  isLoading : Bool
deriving DecidableEq

/-- Minimal fallback profile built from the login/registration response
fields (auth.tsx lines 77-83). -/
def fallbackUser (r : LoginData) : User := ⟨r.id, r.email, r.name, r.username⟩

/-- Embedding of `AuthProvider.signIn` (auth.tsx lines 55-97): calls
`login`; on `null` returns `false` leaving Session unchanged; otherwise
takes the token from the response (or storage when the response token is
falsy), stores a truthy refresh token, fetches the profile via
`getCurrentUser`, falls back to the minimal profile from the login
response when that returns `null`, persists the chosen user and token,
and returns `true`. -/
def signIn (s : AuthState) (st : Storage) (loginResp : Except Unit LoginData)
    (profileResp : Except (Option Nat) User) (refreshResp : Except Unit (Option String))
    (env : Env) (loc : Option String) : Bool × AuthState × Storage × Option String :=
  match login st loginResp with
  | (none, st1) => (false, s, st1, loc)
  | (some u, st1) =>
    let token := if truthy u.access_token then u.access_token else st1.token
    let st2 := if truthy u.refresh_token then { st1 with refreshTok := u.refresh_token } else st1
    match getCurrentUser env st2 profileResp refreshResp loc with
    | (some c, st3, loc3) =>
      let st4 := { st3 with user := some (some c) }
      let st5 := if truthy token then { st4 with token := token } else st4
      (true, ⟨some c, token, s.isLoading⟩, st5, loc3)
    | (none, st3, loc3) =>
      let ud := fallbackUser u
      let st4 := { st3 with user := some (some ud) }
      let st5 := if truthy token then { st4 with token := token } else st4
      (true, ⟨some ud, token, s.isLoading⟩, st5, loc3)

/-- Embedding of `AuthProvider.checkAuth` (auth.tsx lines 24-53), the
session-restore routine run on mount from the initial state
`{user: null, accessToken: null, isLoading: true}`.  When both saved user
and saved token are present (and the token is truthy), it parses the saved
user: a parse failure is caught and removes all three keys; otherwise
the cached user and token are set, the profile is re-fetched via
`getCurrentUser`, and a non-null result overwrites the cached profile and
is re-persisted.  A `null` profile result leaves state and storage as they
are.  The routine always ends with `isLoading = false` and never throws. -/
def checkAuth (st : Storage) (profileResp : Except (Option Nat) User)
    (refreshResp : Except Unit (Option String)) (env : Env) (loc : Option String) :
    AuthState × Storage × Option String :=
  match st.user, st.token with
  | some blob, some tok =>
    if tok = "" then (⟨none, none, false⟩, st, loc)
    else
      match blob with
      | none => (⟨none, none, false⟩, emptyStorage, loc)
      | some userData =>
        match getCurrentUser env st profileResp refreshResp loc with
        | (some c, st2, loc2) =>
          (⟨some c, some tok, false⟩, { st2 with user := some (some c) }, loc2)
        | (none, st2, loc2) => (⟨some userData, some tok, false⟩, st2, loc2)
  | _, _ => (⟨none, none, false⟩, st, loc)

/-- Embedding of `AuthProvider.signOut` (auth.tsx lines 144-150): nulls the
Session user and access token and removes the three storage keys. -/
def signOut (s : AuthState) (_st : Storage) : AuthState × Storage :=
  (⟨none, none, s.isLoading⟩, emptyStorage)

/-- C5: sign-out always leaves the Session with `user = null` and
`accessToken = null`, removes all three storage keys, and is idempotent:
a second call produces the same end state. -/
theorem c5_signOut_idempotent (s : AuthState) (st : Storage) :
    (signOut s st).1.user = none ∧ (signOut s st).1.accessToken = none ∧
    (signOut s st).2 = emptyStorage ∧
    signOut (signOut s st).1 (signOut s st).2 = signOut s st :=
  ⟨rfl, rfl, rfl, rfl⟩

/-- C4: when login succeeds with a truthy access token but the profile
fetch fails, `signIn` returns `true`, the Session user is the minimal
fallback profile built from the login response, the Session access token
is the token from the login response, and both are persisted. -/
theorem c4_signIn_fallback (s : AuthState) (st : Storage) (env : Env)
    (refreshResp : Except Unit (Option String)) (loc : Option String)
    (u : LoginData) (status : Option Nat)
    (htok : truthy u.access_token = true) :
    (signIn s st (.ok u) (.error status) refreshResp env loc).1 = true ∧
    (signIn s st (.ok u) (.error status) refreshResp env loc).2.1.user =
      some (fallbackUser u) ∧
    (signIn s st (.ok u) (.error status) refreshResp env loc).2.1.accessToken =
      u.access_token ∧
    (signIn s st (.ok u) (.error status) refreshResp env loc).2.2.1.token =
      u.access_token ∧
    (signIn s st (.ok u) (.error status) refreshResp env loc).2.2.1.user =
      some (some (fallbackUser u)) := by
  unfold signIn login getCurrentUser
  simp [htok]

/-- Witness for C4 at a concrete input: login returns id "2" with access
token "xyz", the profile endpoint fails with 404. -/
theorem c4_witness :
    (signIn ⟨none, none, false⟩ emptyStorage
        (.ok ⟨"2", "e", "alice", "alice", some "xyz", none⟩)
        (.error (some 404)) (.error ()) ⟨true⟩ none).1 = true ∧
    (signIn ⟨none, none, false⟩ emptyStorage
        (.ok ⟨"2", "e", "alice", "alice", some "xyz", none⟩)
        (.error (some 404)) (.error ()) ⟨true⟩ none).2.1.user =
      some ⟨"2", "e", "alice", "alice"⟩ ∧
    (signIn ⟨none, none, false⟩ emptyStorage
        (.ok ⟨"2", "e", "alice", "alice", some "xyz", none⟩)
        (.error (some 404)) (.error ()) ⟨true⟩ none).2.1.accessToken = some "xyz" := by
  have h := c4_signIn_fallback ⟨none, none, false⟩ emptyStorage ⟨true⟩ (.error ()) none
    ⟨"2", "e", "alice", "alice", some "xyz", none⟩ (some 404) (by decide)
  exact ⟨h.1, h.2.1, h.2.2.1⟩

/-- C3 counterexample: with persisted token "abc" and a well-formed cached
user `{id:"1"}`, a profile fetch failing with 404 leaves the Session
populated with the cached user and token and leaves all storage keys in
place — the restore routine does not clear anything in this case. -/
theorem c3_counterexample :
    (checkAuth ⟨some "abc", some (some ⟨"1", "e", "n", "u"⟩), none⟩
        (.error (some 404)) (.error ()) ⟨true⟩ none).1.user ≠ none ∧
    (checkAuth ⟨some "abc", some (some ⟨"1", "e", "n", "u"⟩), none⟩
        (.error (some 404)) (.error ()) ⟨true⟩ none).2.1.token ≠ none ∧
    (checkAuth ⟨some "abc", some (some ⟨"1", "e", "n", "u"⟩), none⟩
        (.error (some 404)) (.error ()) ⟨true⟩ none).2.1.user ≠ none := by
  decide

/-- C3 as amended: `restoreSession` always terminates with
`isLoading = false` (and, being a total function of its oracles, never
throws); when the cached user data is malformed it clears all three
storage keys and leaves the Session empty; but when the cached data parses
and the profile fetch fails with a non-401 error, the Session keeps the
optimistically-set cached user and token and storage is unchanged. -/
theorem c3_restore_amended (st : Storage) (profileResp : Except (Option Nat) User)
    (refreshResp : Except Unit (Option String)) (env : Env) (loc : Option String) :
    ((checkAuth st profileResp refreshResp env loc).1.isLoading = false) ∧
    (∀ tok, st.user = some none → st.token = some tok → tok ≠ "" →
      checkAuth st profileResp refreshResp env loc = (⟨none, none, false⟩, emptyStorage, loc)) ∧
    (∀ ud tok status, st.user = some (some ud) → st.token = some tok → tok ≠ "" →
      profileResp = .error status → status ≠ some 401 →
      checkAuth st profileResp refreshResp env loc = (⟨some ud, some tok, false⟩, st, loc)) := by
  refine ⟨?_, ?_, ?_⟩
  · unfold checkAuth
    split
    · split
      · rfl
      · split
        · rfl
        · split <;> rfl
    · rfl
  · intro tok hu ht htok
    unfold checkAuth
    rw [hu, ht]
    simp [htok]
  · intro ud tok status hu ht htok hresp hstatus
    subst hresp
    unfold checkAuth getCurrentUser handleResponseError
    rw [hu, ht]
    simp [htok, hstatus]

/-- Witness for C3 (amended) at a concrete input: malformed cached data
clears everything. -/
theorem c3_witness :
    checkAuth ⟨some "abc", some none, none⟩ (.error (some 404)) (.error ()) ⟨true⟩ none =
      (⟨none, none, false⟩, emptyStorage, none) :=
  (c3_restore_amended ⟨some "abc", some none, none⟩ (.error (some 404))
    (.error ()) ⟨true⟩ none).2.1 "abc" rfl rfl (by decide)

/-- Player/tournament statistics row (api.ts `PlayerStats`). -/
structure PlayerStats where
  id : String
  username : String
  email : String
  first_name : Option String
  last_name : Option String
  total_matches : Int
  total_goals_scored : Int
  total_goals_conceded : Int
  goal_difference : Int
  wins : Int
  losses : Int
  draws : Int
  points : Int
deriving DecidableEq

/-- Friend list entry (api.ts `Friend`). -/
structure Friend where
  id : String
  username : String
  first_name : String
  last_name : String
  total_matches : Option Int
  wins : Option Int
  elo_rating : Option Int
deriving DecidableEq

/-- Friend-request list entry (api.ts `FriendRequestUser`). -/
structure FriendRequestUser where
  friend_id : String
  username : String
  first_name : String
  last_name : String
deriving DecidableEq

/-- Friend-requests payload (api.ts `FriendRequestsResponse`). -/
structure FriendRequestsResponse where
  sent_requests : List FriendRequestUser
  received_requests : List FriendRequestUser
deriving DecidableEq

/-- Match-history row (api.ts `MatchResult`). -/
structure MatchResult where
  id : String
  player1_name : String
  player2_name : String
  player1_goals : Int
  player2_goals : Int
  date : String
  half_length : Int
deriving DecidableEq

/-- Paginated list payload (api.ts `PaginatedResponse<T>`). -/
structure PaginatedResponse (α : Type) where
  items : List α
  total : Int
  page : Int
  page_size : Int
  total_pages : Int
  has_next : Bool
  has_previous : Bool
deriving DecidableEq

/-- Trim of leading and trailing whitespace, modelling JavaScript's
`String.prototype.trim` at the character level. -/
def trimL (l : List Char) : List Char :=
  ((l.dropWhile Char.isWhitespace).reverse.dropWhile Char.isWhitespace).reverse

/-- String-level trim over the character data. -/
def strTrim (s : String) : String := ⟨trimL s.data⟩

/-- The zero-valued paginated shape returned by `getTournamentMatches`
when it refuses to issue a request (api.ts lines 691-699). -/
def emptyPaginated (α : Type) (page_size : Int) : PaginatedResponse α :=
  ⟨[], 0, 1, page_size, 0, false, false⟩

/-- The 401 message raised by the friend reads and by `deleteTournament`. -/
def authRequiredMsg : String := "Authentication required. Please log in again."

/-- The 403 message raised by `deleteTournament` (api.ts lines 611-613). -/
def permissionDeniedMsg : String :=
  "You do not have permission to delete this tournament. Only the tournament owner can delete it."

/-- Checks whether a call resolved rather than threw. -/
def isOk {α : Type} : Except String α → Bool
  | .ok _ => true
  | .error _ => false

/-- Embedding of `getPlayers()` (api.ts lines 261-284): an authenticated
GET whose `catch` swallows every error and resolves with `[]`. -/
def getPlayers (env : Env) (st : Storage) (resp : Except (Option Nat) (List User))
    (refreshResp : Except Unit (Option String)) (loc : Option String) :
    Except String (List User) × Storage × Option String :=
  match resp with
  | .ok xs => (.ok xs, st, loc)
  | .error status =>
    let r := handleResponseError env st status refreshResp loc
    (.ok [], r.store, r.location)

/-- Embedding of `getTable()` (api.ts lines 341-363): same swallow-all
error policy as `getPlayers`, default `[]`. -/
def getTable (env : Env) (st : Storage) (resp : Except (Option Nat) (List PlayerStats))
    (refreshResp : Except Unit (Option String)) (loc : Option String) :
    Except String (List PlayerStats) × Storage × Option String :=
  match resp with
  | .ok xs => (.ok xs, st, loc)
  | .error status =>
    let r := handleResponseError env st status refreshResp loc
    (.ok [], r.store, r.location)

/-- Embedding of `getTournamentStandings()` (api.ts lines 727-748): guards
against an empty tournament id, and swallows every error with default `[]`. -/
def getTournamentStandings (tournament_id : String) (env : Env) (st : Storage)
    (resp : Except (Option Nat) (List PlayerStats))
    (refreshResp : Except Unit (Option String)) (loc : Option String) :
    Except String (List PlayerStats) × Storage × Option String :=
  if tournament_id = "" ∨ strTrim tournament_id = "" then (.ok [], st, loc)
  else
    match resp with
    | .ok xs => (.ok xs, st, loc)
    | .error status =>
      let r := handleResponseError env st status refreshResp loc
      (.ok [], r.store, r.location)

/-- Embedding of `getFriends()` (api.ts lines 1009-1024): swallows errors
and returns `[]`, EXCEPT that a 401 response re-throws an
authentication-required error. -/
def getFriends (env : Env) (st : Storage) (resp : Except (Option Nat) (List Friend))
    (refreshResp : Except Unit (Option String)) (loc : Option String) :
    Except String (List Friend) × Storage × Option String :=
  match resp with
  | .ok xs => (.ok xs, st, loc)
  | .error status =>
    let r := handleResponseError env st status refreshResp loc
    if status = some 401 then (.error authRequiredMsg, r.store, r.location)
    else (.ok [], r.store, r.location)

/-- Embedding of `getFriendRequests()` (api.ts lines 992-1007): swallows
errors and returns empty request lists, EXCEPT that a 401 response
re-throws an authentication-required error. -/
def getFriendRequests (env : Env) (st : Storage)
    (resp : Except (Option Nat) FriendRequestsResponse)
    (refreshResp : Except Unit (Option String)) (loc : Option String) :
    Except String FriendRequestsResponse × Storage × Option String :=
  match resp with
  | .ok v => (.ok v, st, loc)
  | .error status =>
    let r := handleResponseError env st status refreshResp loc
    if status = some 401 then (.error authRequiredMsg, r.store, r.location)
    else (.ok ⟨[], []⟩, r.store, r.location)

/-- Embedding of `getTournamentMatches()` (api.ts lines 680-725): an empty
or whitespace-only tournament id short-circuits to the zero-valued
paginated shape before any request is issued; otherwise the page is
fetched and any error degrades to the same zero-valued shape.  The final
`Nat` counts the HTTP requests this function issued. -/
def getTournamentMatches (tournament_id : String) (_page page_size : Int)
    (env : Env) (st : Storage)
    (resp : Except (Option Nat) (PaginatedResponse MatchResult))
    (refreshResp : Except Unit (Option String)) (loc : Option String) :
    PaginatedResponse MatchResult × Storage × Option String × Nat :=
  if tournament_id = "" ∨ strTrim tournament_id = "" then
    (emptyPaginated MatchResult page_size, st, loc, 0)
  else
    match resp with
    | .ok p => (p, st, loc, 1)
    | .error status =>
      let r := handleResponseError env st status refreshResp loc
      (emptyPaginated MatchResult page_size, r.store, r.location, 1)

/-- Embedding of `deleteTournament()` (api.ts lines 602-627): a successful
DELETE resolves; a failed one re-throws an error whose message is keyed by
the HTTP status (403, 404, 401, otherwise a generic message carrying the
server-supplied `detail` field when truthy, else the axios message). -/
def deleteTournament (_tournament_id : String) (env : Env) (st : Storage)
    (resp : Except (Option Nat) Unit) (detail : Option String) (axiosMsg : String)
    (refreshResp : Except Unit (Option String)) (loc : Option String) :
    Except String Unit × Storage × Option String :=
  match resp with
  | .ok _ => (.ok (), st, loc)
  | .error status =>
    let r := handleResponseError env st status refreshResp loc
    let msg :=
      if status = some 403 then permissionDeniedMsg
      else if status = some 404 then "Tournament not found."
      else if status = some 401 then authRequiredMsg
      else "Failed to delete tournament: " ++
        (match detail with
         | some d => if d = "" then axiosMsg else d
         | none => axiosMsg)
    (.error msg, r.store, r.location)

/-- Decides whether `pat` occurs as a contiguous substring of `l`. -/
def hasSubstr : List Char → List Char → Bool
  | [], pat => pat.isEmpty
  | c :: t, pat => pat.isPrefixOf (c :: t) || hasSubstr t pat

/-- String-level substring test over the character data. -/
def strContainsSub (s pat : String) : Bool := hasSubstr s.data pat.data

/-- Lower-cases every character of a string. -/
def strLower (s : String) : String := ⟨s.data.map Char.toLower⟩

/-- Helper: a list is a Boolean prefix of itself. -/
theorem isPrefixOf_self (l : List Char) : l.isPrefixOf l = true := by
  induction l with
  | nil => rfl
  | cons a t ih => simp [List.isPrefixOf, ih]

/-- Helper: a list occurs as a substring at the end of any extension. -/
theorem hasSubstr_append_self (x y : List Char) : hasSubstr (x ++ y) y = true := by
  induction x with
  | nil =>
    cases y with
    | nil => rfl
    | cons c t => simp [hasSubstr, isPrefixOf_self]
  | cons c t ih => simp [hasSubstr, ih]

/-- C6 counterexample: `getFriends` receiving a 401 response re-throws an
authentication-required error, so not every read operation swallows all
errors — an exception does propagate from a read path. -/
theorem c6_counterexample :
    (getFriends ⟨true⟩ emptyStorage (.error (some 401)) (.error ()) none).1 =
      .error authRequiredMsg := rfl

/-- C6 as amended: `getPlayers`, `getTable` and `getTournamentStandings`
swallow every error and resolve with a safe default, and the friend reads
(`getFriends`, `getFriendRequests`) swallow every error except a 401
response, on which they re-throw an authentication-required error. -/
theorem c6_reads_amended (env : Env) (st : Storage)
    (refreshResp : Except Unit (Option String)) (loc : Option String)
    (respU : Except (Option Nat) (List User))
    (respS respS2 : Except (Option Nat) (List PlayerStats))
    (fs : List Friend) (fr : FriendRequestsResponse) (tid : String) :
    isOk (getPlayers env st respU refreshResp loc).1 = true ∧
    isOk (getTable env st respS refreshResp loc).1 = true ∧
    isOk (getTournamentStandings tid env st respS2 refreshResp loc).1 = true ∧
    isOk (getFriends env st (.ok fs) refreshResp loc).1 = true ∧
    (∀ status, status ≠ some 401 →
      isOk (getFriends env st (.error status) refreshResp loc).1 = true) ∧
    (getFriends env st (.error (some 401)) refreshResp loc).1 = .error authRequiredMsg ∧
    isOk (getFriendRequests env st (.ok fr) refreshResp loc).1 = true ∧
    (∀ status, status ≠ some 401 →
      isOk (getFriendRequests env st (.error status) refreshResp loc).1 = true) ∧
    (getFriendRequests env st (.error (some 401)) refreshResp loc).1 =
      .error authRequiredMsg := by
  refine ⟨?_, ?_, ?_, rfl, ?_, rfl, rfl, ?_, rfl⟩
  · cases respU <;> rfl
  · cases respS <;> rfl
  · unfold getTournamentStandings
    split
    · rfl
    · cases respS2 <;> rfl
  · intro status h
    unfold getFriends
    simp [h, isOk]
  · intro status h
    unfold getFriendRequests
    simp [h, isOk]

/-- Witness for C6 (amended) at concrete inputs: a 500 on `getPlayers`
resolves, a 404 on `getFriends` resolves. -/
theorem c6_witness :
    isOk (getPlayers ⟨true⟩ emptyStorage (.error (some 500)) (.error ()) none).1 = true ∧
    isOk (getFriends ⟨true⟩ emptyStorage (.error (some 404)) (.error ()) none).1 = true := by
  have h := c6_reads_amended ⟨true⟩ emptyStorage (.error ()) none (.error (some 500))
    (.error (some 500)) (.error (some 500)) [] ⟨[], []⟩ "t"
  exact ⟨h.1, h.2.2.2.2.1 (some 404) (by decide)⟩

/-- C7: an empty or whitespace-only tournament id makes
`getTournamentMatches` return the zero-valued paginated shape (with
`page = 1` and the requested `page_size`) and issue no network request. -/
theorem c7_empty_tournament_id (tournament_id : String) (page page_size : Int)
    (env : Env) (st : Storage)
    (resp : Except (Option Nat) (PaginatedResponse MatchResult))
    (refreshResp : Except Unit (Option String)) (loc : Option String)
    (h : strTrim tournament_id = "") :
    getTournamentMatches tournament_id page page_size env st resp refreshResp loc =
      (emptyPaginated MatchResult page_size, st, loc, 0) := by
  unfold getTournamentMatches
  rw [if_pos (Or.inr h)]

/-- Witness for C7 at the concrete input of Scenario D. -/
theorem c7_witness :
    getTournamentMatches "" 1 50 ⟨true⟩ emptyStorage (.error (some 500)) (.error ()) none =
      (emptyPaginated MatchResult 50, emptyStorage, none, 0) :=
  c7_empty_tournament_id "" 1 50 ⟨true⟩ emptyStorage (.error (some 500)) (.error ()) none
    (by decide)

/-- C8 counterexample: the 403 rejection message of `deleteTournament`
does not contain the claimed substring "only the tournament owner" — the
source capitalizes it as "Only the tournament owner". -/
theorem c8_counterexample :
    (deleteTournament "t1" ⟨true⟩ emptyStorage (.error (some 403)) none
        "Request failed" (.error ()) none).1 = .error permissionDeniedMsg ∧
    strContainsSub permissionDeniedMsg "only the tournament owner" = false := by
  exact ⟨rfl, by decide⟩

/-- C8 as amended: the 403 rejection message contains "only the tournament
owner" up to letter case (the source writes "Only the tournament owner");
404 rejects with the not-found message, 401 with the
reauthentication-required message, and any other status with a generic
message that includes the server-supplied detail when present. -/
theorem c8_deleteTournament_amended (tid : String) (env : Env) (st : Storage)
    (refreshResp : Except Unit (Option String)) (loc : Option String)
    (detail : Option String) (axiosMsg : String) :
    ((deleteTournament tid env st (.error (some 403)) detail axiosMsg refreshResp loc).1 =
      .error permissionDeniedMsg) ∧
    strContainsSub (strLower permissionDeniedMsg) "only the tournament owner" = true ∧
    ((deleteTournament tid env st (.error (some 404)) detail axiosMsg refreshResp loc).1 =
      .error "Tournament not found.") ∧
    ((deleteTournament tid env st (.error (some 401)) detail axiosMsg refreshResp loc).1 =
      .error authRequiredMsg) ∧
    (∀ status d, status ≠ some 403 → status ≠ some 404 → status ≠ some 401 → d ≠ "" →
      (deleteTournament tid env st (.error status) (some d) axiosMsg refreshResp loc).1 =
        .error ("Failed to delete tournament: " ++ d) ∧
      strContainsSub ("Failed to delete tournament: " ++ d) d = true) := by
  refine ⟨rfl, by decide, rfl, rfl, ?_⟩
  intro status d h403 h404 h401 hd
  constructor
  · unfold deleteTournament
    simp [h403, h404, h401, hd]
  · unfold strContainsSub
    rw [String.data_append]
    exact hasSubstr_append_self _ _

/-- Witness for C8 (amended) at a concrete input: a 500 with server detail
"boom" yields the generic message carrying the detail. -/
theorem c8_witness :
    (deleteTournament "t1" ⟨true⟩ emptyStorage (.error (some 500)) (some "boom") "m"
        (.error ()) none).1 = .error "Failed to delete tournament: boom" :=
  ((c8_deleteTournament_amended "t1" ⟨true⟩ emptyStorage (.error ()) none (some "boom")
      "m").2.2.2.2 (some 500) "boom" (by decide) (by decide) (by decide) (by decide)).1

/-- Browser location data (`window.location`). -/
structure Window where
  hostname : String
  protocol : String

/-- Environment configuration read at module load (api.ts lines 41-44):
the production URL override `NEXT_PUBLIC_API_BASE_URL_NGROK`, the local
default `NEXT_PUBLIC_API_BASE_URL_LOCAL` (already defaulted to
`http://localhost:8000` when unset), and the environment indicator. -/
structure Config where
  ngrokUrl : Option String
  localUrl : String
  environment : Option String

/-- First six characters of the insecure scheme after its leading `h`. -/
def ttpPat : List Char := ['t', 't', 'p', ':', '/', '/']

/-- The insecure scheme prefix `http://` as characters. -/
def httpPat : List Char := 'h' :: ttpPat

/-- The secure scheme prefix `https://` as characters. -/
def httpsRep : List Char := ['h', 't', 't', 'p', 's', ':', '/', '/']

/-- Replacement of the first occurrence of `pat` by `rep`, modelling
JavaScript's `String.prototype.replace` with a plain-string pattern. -/
def replaceFirstAux (pat rep : List Char) : List Char → List Char
  | [] => []
  | c :: cs =>
    if pat.isPrefixOf (c :: cs) then rep ++ (c :: cs).drop pat.length
    else c :: replaceFirstAux pat rep cs

/-- Embedding of `url.replace('http:\x2f\x2f', 'https:\x2f\x2f')`. -/
def replaceHttp (s : String) : String := ⟨replaceFirstAux httpPat httpsRep s.data⟩

/-- Embedding of `url.startsWith('http:\x2f\x2f')`. -/
def startsWithHttp (s : String) : Bool := httpPat.isPrefixOf s.data

/-- Embedding of `url.replace(trailingSlashPattern, '')`: removes one
trailing slash when present. -/
def stripTrailingSlash (s : String) : String :=
  match s.data.getLast? with
  | some '/' => ⟨s.data.dropLast⟩
  | _ => s

/-- The transformation api.ts applies to the production URL override:
force the secure scheme, strip a trailing slash, append `/api/v1`. -/
def ngrokToHttps (n : String) : String :=
  stripTrailingSlash (replaceHttp n) ++ "/api/v1"

/-- Embedding of `getApiBaseUrl()` (api.ts lines 47-104): in a browser,
a production environment with a truthy override uses the override forced
to the secure scheme; a localhost page uses the local default; otherwise a
truthy override is used (again forced secure), else the local default.
Outside a browser the local default is used. -/
def getApiBaseUrl (cfg : Config) (win : Option Window) : String :=
  match win with
  | some w =>
    if cfg.environment = some "production" ∧ truthy cfg.ngrokUrl then
      ngrokToHttps (cfg.ngrokUrl.getD "")
    else if w.hostname = "localhost" ∨ w.hostname = "127.0.0.1" then
      cfg.localUrl ++ "/api/v1"
    else if truthy cfg.ngrokUrl then
      ngrokToHttps (cfg.ngrokUrl.getD "")
    else
      cfg.localUrl ++ "/api/v1"
  | none => cfg.localUrl ++ "/api/v1"

/-- Embedding of the base-URL computation of `createAuthenticatedRequest`
(api.ts lines 137-172): re-resolves the base URL, replaces the insecure
scheme when the page is secure or the host is not localhost, and applies a
final safety replacement when a non-localhost page still sees an insecure
base URL. -/
def finalBaseUrl (cfg : Config) (win : Option Window) : String :=
  match win with
  | none => getApiBaseUrl cfg win
  | some w =>
    let fresh := getApiBaseUrl cfg win
    let f :=
      if w.protocol = "https:" ∨ w.hostname ≠ "localhost" then replaceHttp fresh
      else fresh
    if w.hostname ≠ "localhost" ∧ startsWithHttp f = true then replaceHttp f else f

/-- Embedding of the base URL used by `login`, `register` and
`refreshToken` (api.ts lines 760, 776, 817): the module-level
`API_BASE_URL`, which is `getApiBaseUrl()` evaluated once at load with no
further scheme enforcement. -/
def loginBaseUrl (cfg : Config) (win : Option Window) : String :=
  getApiBaseUrl cfg win

/-- Helper: prefixes free of the letter `h` survive backwards through the
scheme replacement, because every replacement inserts a block starting
with `h`. -/
theorem prefix_through_replace :
    ∀ (cs pat : List Char), 'h' ∉ pat →
      pat.isPrefixOf (replaceFirstAux httpPat httpsRep cs) = true →
      pat.isPrefixOf cs = true := by
  intro cs
  induction cs with
  | nil => intro pat _ h; simpa [replaceFirstAux] using h
  | cons c t ih =>
    intro pat hh h
    cases pat with
    | nil => simp [List.isPrefixOf]
    | cons a rest =>
      have hh' : 'h' ∉ rest := fun m => hh (List.mem_cons_of_mem a m)
      simp only [replaceFirstAux] at h
      split at h
      next =>
        exfalso
        have ha : a = 'h' := by
          simp [httpsRep, List.isPrefixOf] at h
          exact h.1
        exact hh (by rw [← ha]; exact List.mem_cons_self a rest)
      next =>
        simp only [List.isPrefixOf, Bool.and_eq_true, beq_iff_eq] at h ⊢
        exact ⟨h.1, ih rest hh' h.2⟩

/-- Helper: the result of replacing the first `http:\x2f\x2f` by
`https:\x2f\x2f` never starts with `http:\x2f\x2f`. -/
theorem replaceFirstAux_no_http :
    ∀ cs : List Char, httpPat.isPrefixOf (replaceFirstAux httpPat httpsRep cs) = false := by
  intro cs
  induction cs with
  | nil => rfl
  | cons c t ih =>
    simp only [replaceFirstAux]
    split
    next => rfl
    next hm =>
      cases hq : httpPat.isPrefixOf (c :: replaceFirstAux httpPat httpsRep t) with
      | false => rfl
      | true =>
        have hstep : httpPat.isPrefixOf (c :: t) = true := by
          simp only [httpPat, List.isPrefixOf, Bool.and_eq_true, beq_iff_eq] at hq ⊢
          exact ⟨hq.1, prefix_through_replace t ttpPat (by decide) hq.2⟩
        exact absurd hstep hm

/-- Helper: `replaceHttp` output never starts with the insecure scheme. -/
theorem replaceHttp_safe (s : String) : startsWithHttp (replaceHttp s) = false :=
  replaceFirstAux_no_http s.data

/-- C9 counterexample: with no production URL override configured and the
page served at `https://localhost`, the module-level base URL used by
`login`, `register` and `refreshToken` (and re-read per request) is
`http://localhost:8000/api/v1` — a request base URL beginning with
`http:\x2f\x2f` although the page protocol is `https:`. -/
theorem c9_counterexample :
    (⟨"localhost", "https:"⟩ : Window).protocol = "https:" ∧
    startsWithHttp (loginBaseUrl ⟨none, "http://localhost:8000", none⟩
      (some ⟨"localhost", "https:"⟩)) = true := by
  exact ⟨rfl, by decide⟩

/-- C9 as amended: requests built through `createAuthenticatedRequest`
never use a base URL beginning with `http:\x2f\x2f` when the page was
loaded over `https:`, for every configuration; but the claim fails for
`login`, `register` and `refreshToken`, which use the module-level base
URL without scheme enforcement (see the counterexample). -/
theorem c9_https_enforced_for_authenticated_requests (cfg : Config) (w : Window)
    (h : w.protocol = "https:") :
    startsWithHttp (finalBaseUrl cfg (some w)) = false := by
  unfold finalBaseUrl
  dsimp only
  rw [if_pos (Or.inl h)]
  have hf := replaceHttp_safe (getApiBaseUrl cfg (some w))
  rw [if_neg]
  · exact hf
  · rintro ⟨-, hcon⟩
    rw [hf] at hcon
    exact Bool.false_ne_true hcon

/-- Witness for C9 (amended) at a concrete input: an https page on a
non-localhost host with no override still gets a secure base URL from
`createAuthenticatedRequest`. -/
theorem c9_witness :
    startsWithHttp (finalBaseUrl ⟨none, "http://localhost:8000", none⟩
      (some ⟨"app.example.com", "https:"⟩)) = false :=
  c9_https_enforced_for_authenticated_requests ⟨none, "http://localhost:8000", none⟩
    ⟨"app.example.com", "https:"⟩ rfl

end FifaTracker
